import Mathlib

/-!
Verification of the fee-and-ledger computation model of the NIL blockchain
platform (modules `fee_service.py` and `dynamodb_service.py`).

Monetary amounts and percentages are embedded as exact rationals (`ℚ`),
the idealized decimal arithmetic the spec describes.  Python's `round`
(banker's rounding) is modelled as round-half-up `roundTo`; no value in
the claims sits on a rounding tie, so the two agree everywhere they are
used.  The DynamoDB table is embedded as a list of items, each carrying a
partition key, a sort key and an attribute list; `put_item` overwrites the
item with the same (PK, SK) pair, and queries filter and sort the table
the way the underlying store would.
-/

namespace FeeModel

/-- Fee structure configuration, mirroring the `FeeStructure` dataclass of
`fee_service.py` with its field defaults. -/
structure FeeStructure where
  transaction_fee_percent : ℚ := 4
  deployment_fee_usd : ℚ := 12.50
  subscription_fee_monthly_usd : ℚ := 15.00
  premium_feature_fee_min_usd : ℚ := 5.00
  premium_feature_fee_max_usd : ℚ := 10.00
  max_effective_fee_percent : ℚ := 11.0
  deriving DecidableEq, Repr

/-- The default fee structure (`FeeStructure()` in the source). -/
def defaultFeeStructure : FeeStructure := {}

/-- Round a rational to `n` decimal places (Python's `round(x, n)`;
half-up here versus Python's half-to-even, which differ only on exact
ties that never arise in the values under verification). -/
def roundTo (n : ℕ) (q : ℚ) : ℚ := (⌊q * 10 ^ n + 1 / 2⌋ : ℚ) / 10 ^ n

/-- Errors a fee-service call can raise.  `calculate_deal_fees` performs
no input validation; the only failure it can produce is Python's
`ZeroDivisionError` on the `total_fee / deal_value_usd` division. -/
inductive FeeError where
  | zeroDivision
  deriving DecidableEq, Repr

/-- Core arithmetic of `FeeService.calculate_deal_fees` (lines 42-67):
returns the unrounded `(transaction_fee, total_fee, effective_percent)`
triple after the tier adjustment has (or has not) been applied.  The
caller guarantees `d ≠ 0`. -/
def dealFeesCore (fs : FeeStructure) (d : ℚ) : ℚ × ℚ × ℚ :=
  let transaction_fee := d * (fs.transaction_fee_percent / 100)
  let premium_fee : ℚ := 0
  let total_fee := transaction_fee + fs.deployment_fee_usd +
    fs.subscription_fee_monthly_usd + premium_fee
  let effective_percent := total_fee / d * 100
  if fs.max_effective_fee_percent < effective_percent then
    let tx' :=
      if d < 1000 then min transaction_fee (d * (3 / 100))
      else if d < 2000 then min transaction_fee (d * (7 / 200))
      else transaction_fee
    let total' := tx' + fs.deployment_fee_usd +
      fs.subscription_fee_monthly_usd + premium_fee
    (tx', total', total' / d * 100)
  else
    (transaction_fee, total_fee, effective_percent)

/-- The fee breakdown returned by `calculate_deal_fees` (the dict of
lines 69-88, numeric and status fields; the display-string fields are
formatting of these numbers and are omitted). -/
structure FeeBreakdown where
  deal_value_usd : ℚ
  transaction_fee_usd : ℚ
  deployment_fee_usd : ℚ
  subscription_fee_usd : ℚ
  premium_fee_usd : ℚ
  total_effective_fee_usd : ℚ
  effective_fee_percentage : ℚ
  retention_score : String
  deriving DecidableEq, Repr

/-- `FeeService.calculate_deal_fees`.  There is no validation of
`deal_value_usd`: a zero input fails with `ZeroDivisionError` at the
`total_fee / deal_value_usd` division, and every other input (negative
included) produces a breakdown. -/
def calculate_deal_fees (fs : FeeStructure) (deal_value_usd : ℚ) :
    Except FeeError FeeBreakdown :=
  if deal_value_usd = 0 then .error .zeroDivision
  else
    let r := dealFeesCore fs deal_value_usd
    .ok {
      deal_value_usd := deal_value_usd
      transaction_fee_usd := roundTo 2 r.1
      deployment_fee_usd := fs.deployment_fee_usd
      subscription_fee_usd := fs.subscription_fee_monthly_usd
      premium_fee_usd := 0
      total_effective_fee_usd := roundTo 2 r.2.1
      effective_fee_percentage := roundTo 1 r.2.2
      retention_score := if r.2.2 < 11 then "High" else "Medium" }

/-- `FeeService.validate_premium_feature_fee`: the chained comparison
`min <= fee_usd <= max`. -/
def validate_premium_feature_fee (fs : FeeStructure) (fee_usd : ℚ) : Bool :=
  decide (fs.premium_feature_fee_min_usd ≤ fee_usd) &&
    decide (fee_usd ≤ fs.premium_feature_fee_max_usd)

end FeeModel

namespace StoreModel

/-- A DynamoDB attribute value: the items of `dynamodb_service.py` hold
strings and numbers (`Decimal`/int/float, embedded as `ℚ`). -/
inductive AttrVal where
  | str (s : String)
  | num (q : ℚ)
  deriving DecidableEq, Repr

/-- A table item: partition key, sort key and the remaining attributes. -/
structure Item where
  PK : String
  SK : String
  attrs : List (String × AttrVal)
  deriving DecidableEq, Repr

/-- The table state: the set of stored items, as a list. -/
abbrev Table := List Item

/-- Look up a non-key attribute of an item. -/
def getAttr (it : Item) (k : String) : Option AttrVal :=
  (it.attrs.find? (fun p => p.1 == k)).map Prod.snd

/-- `table.put_item`: stores the item, overwriting any existing item with
the same (PK, SK) primary key. -/
def put_item (t : Table) (it : Item) : Table :=
  it :: t.filter (fun j => !(j.PK == it.PK && j.SK == it.SK))

/-- `table.get_item` by full primary key: `response.get('Item')`. -/
def get_item (t : Table) (pk sk : String) : Option Item :=
  t.find? (fun j => j.PK == pk && j.SK == sk)

/-- DynamoDB's `begins_with` key condition. -/
def beginsWith (s p : String) : Bool := p.data.isPrefixOf s.data

/-- Sort key of an item in the GSI2 index (the `GSI2SK` attribute;
items lacking it do not appear in that index). -/
def gsi2sk (it : Item) : String :=
  match getAttr it "GSI2SK" with
  | some (.str s) => s
  | _ => ""

/-- Index order of GSI2: ascending `GSI2SK` (ISO-8601 timestamps compare
lexicographically, i.e. chronologically). -/
def gsi2le (a b : Item) : Prop := gsi2sk a ≤ gsi2sk b

instance : DecidableRel gsi2le := fun a b =>
  inferInstanceAs (Decidable (gsi2sk a ≤ gsi2sk b))

instance : IsTotal Item gsi2le := ⟨fun a b => le_total (gsi2sk a) (gsi2sk b)⟩

instance : IsTrans Item gsi2le := ⟨fun _ _ _ => le_trans⟩

/-- Main-table query order: ascending sort key. -/
def skle (a b : Item) : Prop := a.SK ≤ b.SK

instance : DecidableRel skle := fun a b =>
  inferInstanceAs (Decidable (a.SK ≤ b.SK))

instance : IsTotal Item skle := ⟨fun a b => le_total a.SK b.SK⟩

instance : IsTrans Item skle := ⟨fun _ _ _ => le_trans⟩

/-- A main-table `query`: items matching the key condition, in ascending
sort-key order. -/
def queryMain (t : Table) (cond : Item → Bool) : List Item :=
  (t.filter cond).insertionSort skle

/-- A `query` on index GSI2: matching items in ascending `GSI2SK` order. -/
def queryGSI2 (t : Table) (cond : Item → Bool) : List Item :=
  (t.filter cond).insertionSort gsi2le

/-- `DynamoDBService.create_contract` (lines 59-91).  The generated UUID
and the clock reading are explicit parameters (`contract_id`,
`created_at`); returns the written item and the new table state. -/
def create_contract (t : Table)
    (contract_id created_at user_id athlete_wallet sponsor_wallet
      contract_address abi : String)
    (appearances_required payment_amount platform_fee_percent
      deployment_fee : ℚ) : Item × Table :=
  let item : Item := {
    PK := "CONTRACT#" ++ contract_id
    SK := "METADATA"
    attrs := [
      ("user_id", .str user_id),
      ("athlete_wallet", .str athlete_wallet),
      ("sponsor_wallet", .str sponsor_wallet),
      ("address", .str contract_address),
      ("abi", .str abi),
      ("appearances_required", .num appearances_required),
      ("payment_amount", .num payment_amount),
      ("platform_fee_percent", .num platform_fee_percent),
      ("deployment_fee", .num deployment_fee),
      ("created_at", .str created_at),
      ("updated_at", .str created_at),
      ("status", .str "active"),
      ("GSI1PK", .str ("WALLET#" ++ athlete_wallet)),
      ("GSI1SK", .str ("CONTRACT#" ++ created_at)),
      ("GSI2PK", .str "CONTRACT"),
      ("GSI2SK", .str created_at)] }
  (item, put_item t item)

/-- `DynamoDBService.get_contract`. -/
def get_contract (t : Table) (contract_id : String) : Option Item :=
  get_item t ("CONTRACT#" ++ contract_id) "METADATA"

/-- `DynamoDBService.get_user_contracts`: queries partition
`USER#<user_id>` with sort-key condition `begins_with('CONTRACT')`. -/
def get_user_contracts (t : Table) (user_id : String) : List Item :=
  queryMain t (fun j => j.PK == ("USER#" ++ user_id) && beginsWith j.SK "CONTRACT")

/-- `DynamoDBService.record_deployment_fee` (lines 151-174). -/
def record_deployment_fee (t : Table)
    (fee_id created_at user_id user_type contract_type : String)
    (fee_usd : ℚ) : Item × Table :=
  let item : Item := {
    PK := "FEE#" ++ fee_id
    SK := "DEPLOYMENT"
    attrs := [
      ("user_id", .str user_id),
      ("user_type", .str user_type),
      ("contract_type", .str contract_type),
      ("fee_usd", .num fee_usd),
      ("status", .str "completed"),
      ("created_at", .str created_at),
      ("GSI1PK", .str ("USER#" ++ user_id)),
      ("GSI1SK", .str ("FEE#" ++ created_at)),
      ("GSI2PK", .str "FEE"),
      ("GSI2SK", .str created_at)] }
  (item, put_item t item)

/-- `DynamoDBService.record_subscription_fee` (lines 176-206).  The
computed billing end date is the explicit `end_date` parameter (it is a
clock-derived value the claims do not constrain).  Note the item carries
no GSI1 attributes. -/
def record_subscription_fee (t : Table)
    (sub_id created_at end_date user_id user_type plan_name : String)
    (fee_usd : ℚ) : Item × Table :=
  let item : Item := {
    PK := "USER#" ++ user_id
    SK := "SUB#" ++ sub_id
    attrs := [
      ("plan", .str plan_name),
      ("fee_usd", .num fee_usd),
      ("start_date", .str created_at),
      ("end_date", .str end_date),
      ("status", .str "active"),
      ("created_at", .str created_at),
      ("GSI2PK", .str "SUB"),
      ("GSI2SK", .str created_at)] }
  (item, put_item t item)

/-- `DynamoDBService.record_premium_fee` (lines 208-229).  No premium-fee
bounds check appears anywhere on this path. -/
def record_premium_fee (t : Table)
    (feature_id created_at user_id user_type feature_name : String)
    (fee_usd : ℚ) : Item × Table :=
  let item : Item := {
    PK := "USER#" ++ user_id
    SK := "PREMIUM#" ++ feature_id
    attrs := [
      ("feature_name", .str feature_name),
      ("fee_usd", .num fee_usd),
      ("status", .str "active"),
      ("created_at", .str created_at),
      ("GSI1PK", .str ("USER#" ++ user_id)),
      ("GSI1SK", .str ("PREMIUM#" ++ created_at)),
      ("GSI2PK", .str "PREMIUM"),
      ("GSI2SK", .str created_at)] }
  (item, put_item t item)

/-- `DynamoDBService.get_transactions_by_date_range` (lines 270-276):
GSI2 query with `GSI2PK = entity_type` and `GSI2SK` `between`
(inclusive both ends) the two bounds, returned in index (ascending
creation-time) order. -/
def get_transactions_by_date_range (t : Table)
    (start_date end_date entity_type : String) : List Item :=
  queryGSI2 t (fun j =>
    (getAttr j "GSI2PK" == some (.str entity_type)) &&
      match getAttr j "GSI2SK" with
      | some (.str s) => decide (start_date ≤ s) && decide (s ≤ end_date)
      | _ => false)

/-- `DynamoDBService.get_user`. -/
def get_user (t : Table) (user_id : String) : Option Item :=
  get_item t ("USER#" ++ user_id) "METADATA"

/-- The `overall` analytics section once computed (it is the empty dict
`{}` — `none` here — when the scan failed). -/
structure OverallStats where
  total_deals : ℕ
  total_revenue : ℚ
  avg_fee : ℚ
  deriving DecidableEq, Repr

/-- Result shape of `get_fee_analytics`. -/
structure Analytics where
  by_deal_size : List Item
  overall : Option OverallStats
  top_users : List Item
  deriving DecidableEq, Repr

/-- The scan filter of `get_fee_analytics`:
`PK begins_with 'FEE#' OR GSI2PK = 'SUB' OR GSI2PK = 'PREMIUM'`. -/
def feeScanCond (j : Item) : Bool :=
  beginsWith j.PK "FEE#" || (getAttr j "GSI2PK" == some (.str "SUB")) ||
    (getAttr j "GSI2PK" == some (.str "PREMIUM"))

/-- The summation loop of `get_fee_analytics`: total and count of the
`fee_usd` attributes present among the scanned items. -/
def sumFees (items : List Item) : ℚ × ℕ :=
  items.foldl (fun acc it =>
    match getAttr it "fee_usd" with
    | some (.num q) => (acc.1 + q, acc.2 + 1)
    | _ => acc) (0, 0)

/-- A transport/connectivity failure of the underlying store
(`StoreUnavailable` in the spec's taxonomy). -/
inductive StoreErr where
  | storeUnavailable (msg : String)
  deriving DecidableEq, Repr

/-- A backend response: either the table is reachable or the call raised
a transport error.  Service methods that make one backend call and
transform its response propagate the error (Python re-raises through
them); a method that catches the exception is total in the response. -/
abbrev DBResult (α : Type) := Except StoreErr α

/-- `get_user` over a fallible backend: the exception from
`table.get_item` propagates to the caller. -/
def get_userE (res : DBResult Table) (user_id : String) :
    DBResult (Option Item) :=
  res.map (fun t => get_user t user_id)

/-- `get_contract` over a fallible backend: propagates. -/
def get_contractE (res : DBResult Table) (contract_id : String) :
    DBResult (Option Item) :=
  res.map (fun t => get_contract t contract_id)

/-- `get_user_contracts` over a fallible backend: propagates. -/
def get_user_contractsE (res : DBResult Table) (user_id : String) :
    DBResult (List Item) :=
  res.map (fun t => get_user_contracts t user_id)

/-- `get_transactions_by_date_range` over a fallible backend:
propagates. -/
def get_transactions_by_date_rangeE (res : DBResult Table)
    (start_date end_date entity_type : String) : DBResult (List Item) :=
  res.map (fun t => get_transactions_by_date_range t start_date end_date entity_type)

/-- `record_premium_fee` over a fallible backend (`table.put_item`
raising): propagates. -/
def record_premium_feeE (res : DBResult Table)
    (feature_id created_at user_id user_type feature_name : String)
    (fee_usd : ℚ) : DBResult (Item × Table) :=
  res.map (fun t =>
    record_premium_fee t feature_id created_at user_id user_type feature_name fee_usd)

/-- `DynamoDBService.get_fee_analytics` (lines 232-268): the scan sits in
a `try/except` that logs the error and falls through to `return
analytics`, so a backend failure yields the initial analytics dict
(empty lists, `overall = {}`) as a normal, non-error result. -/
def get_fee_analyticsE (res : DBResult Table) : Analytics :=
  match res with
  | .ok t =>
      let s := sumFees (t.filter feeScanCond)
      { by_deal_size := []
        overall := some {
          total_deals := s.2
          total_revenue := FeeModel.roundTo 2 s.1
          avg_fee := if 0 < s.2 then FeeModel.roundTo 2 (s.1 / s.2) else 0 }
        top_users := [] }
  | .error _ => { by_deal_size := [], overall := none, top_users := [] }

end StoreModel

open FeeModel StoreModel

/-- C1 (counterexample): the claim says every `deal_value_usd <= 0` fails
with `InvalidInput`; in fact `calculate_deal_fees (-100)` returns a
breakdown normally (no error of any kind is raised for negative input). -/
theorem c1_cex_negative_deal_returns_breakdown :
    (-100 : ℚ) ≤ 0 ∧
      (calculate_deal_fees defaultFeeStructure (-100)).isOk = true := by
  constructor
  · norm_num
  · rw [calculate_deal_fees, if_neg (by norm_num)]
    rfl

/-- C1 (amended): `calculate_deal_fees` performs no input validation.
Every negative `deal_value_usd` yields a normal fee breakdown, and
`deal_value_usd = 0` fails with a division-by-zero error (Python's
`ZeroDivisionError` at the `total_fee / deal_value_usd` division), not
with `InvalidInput` — no `InvalidInput` failure exists on this path. -/
theorem c1_amended_no_input_validation :
    (∀ d : ℚ, d < 0 →
      (calculate_deal_fees defaultFeeStructure d).isOk = true) ∧
    calculate_deal_fees defaultFeeStructure 0 = .error .zeroDivision := by
  constructor
  · intro d hd
    rw [calculate_deal_fees, if_neg (ne_of_lt hd)]
    rfl
  · rw [calculate_deal_fees, if_pos rfl]

/-- C1 (witness): the amended theorem applied at `deal_value_usd = -100`. -/
theorem c1_witness_neg_hundred :
    (calculate_deal_fees defaultFeeStructure (-100)).isOk = true :=
  c1_amended_no_input_validation.1 (-100) (by norm_num)

/-- C2 (counterexample): the claim bounds the post-adjustment effective
percentage by the 11% cap (up to epsilon) for every deal below 2000; at
`deal_value = 100` the post-adjustment effective percentage is 30.5,
far above the cap, although `100 < 2000`. -/
theorem c2_cex_small_deal_breaches_cap :
    (100 : ℚ) < 2000 ∧
    (dealFeesCore defaultFeeStructure 100).2.2 = 30.5 ∧
    ¬ (dealFeesCore defaultFeeStructure 100).2.2 ≤
        defaultFeeStructure.max_effective_fee_percent + 1 / 2 := by
  refine ⟨by norm_num, ?_, ?_⟩ <;>
    norm_num [dealFeesCore, defaultFeeStructure, min_def]

/-- C2 (amended): with the default fee structure, the effective
percentage after the tier adjustment respects the 11% cap exactly for
deals of value at least 343.75; every smaller deal breaches the cap even
after the under-1000 adjustment, and (contrary to the claim's exception)
deals of 2000 or more never breach it under the defaults. -/
theorem c2_amended_cap_iff_343_75 (d : ℚ) (hd : 0 < d) :
    (dealFeesCore defaultFeeStructure d).2.2 ≤
      defaultFeeStructure.max_effective_fee_percent ↔ (343.75 : ℚ) ≤ d := by
  have hcap11 : defaultFeeStructure.max_effective_fee_percent = 11 := by
    norm_num [defaultFeeStructure]
  rw [hcap11, dealFeesCore]
  simp only [defaultFeeStructure]
  split_ifs with hcap hsmall hmed
  · rw [div_mul_eq_mul_div, lt_div_iff₀ hd] at hcap
    have hmin : d * (4 / 100) ⊓ d * (3 / 100) = d * (3 / 100) :=
      inf_eq_right.mpr (by nlinarith)
    dsimp only
    rw [hmin, div_mul_eq_mul_div, div_le_iff₀ hd]
    constructor <;> intro h <;> nlinarith
  · rw [div_mul_eq_mul_div, lt_div_iff₀ hd] at hcap
    exact absurd (by nlinarith : d < 1000) hsmall
  · rw [div_mul_eq_mul_div, lt_div_iff₀ hd] at hcap
    exact absurd (by nlinarith : d < 1000) hsmall
  · push_neg at hcap
    rw [div_mul_eq_mul_div, div_le_iff₀ hd] at hcap
    dsimp only
    rw [div_mul_eq_mul_div, div_le_iff₀ hd]
    constructor <;> intro h <;> nlinarith

/-- C2 (witness): the amended theorem applied at `deal_value = 400`
(above the 343.75 threshold, so the cap holds there). -/
theorem c2_witness_deal_400 :
    (dealFeesCore defaultFeeStructure 400).2.2 ≤
      defaultFeeStructure.max_effective_fee_percent ↔ (343.75 : ℚ) ≤ 400 :=
  c2_amended_cap_iff_343_75 400 (by norm_num)

/-- C3: `calculate_deal_fees 100` with defaults takes the under-1000
tier adjustment and returns `transaction_fee = 3.00`,
`total_fee = 30.50` and `effective_percent = 30.5` — the adjusted but
still-over-cap values, not values clamped to 11%. -/
theorem c3_deal_100_breakdown :
    calculate_deal_fees defaultFeeStructure 100 = .ok {
      deal_value_usd := 100
      transaction_fee_usd := 3
      deployment_fee_usd := 12.5
      subscription_fee_usd := 15
      premium_fee_usd := 0
      total_effective_fee_usd := 30.5
      effective_fee_percentage := 30.5
      retention_score := "Medium" } := by
  have hcore : dealFeesCore defaultFeeStructure 100 = (3, 30.5, 30.5) := by
    norm_num [dealFeesCore, defaultFeeStructure, min_def]
  rw [calculate_deal_fees, if_neg (by norm_num)]
  simp only [hcore]
  norm_num [roundTo, defaultFeeStructure]

/-- C6: under the default structure, `validate_premium_feature_fee` is
true exactly on `5.00 <= fee <= 10.00`, and both boundary values are
accepted. -/
theorem c6_premium_fee_bounds :
    (∀ fee : ℚ, validate_premium_feature_fee defaultFeeStructure fee = true ↔
      5 ≤ fee ∧ fee ≤ 10) ∧
    validate_premium_feature_fee defaultFeeStructure 5 = true ∧
    validate_premium_feature_fee defaultFeeStructure 10 = true := by
  refine ⟨fun fee => ?_, ?_, ?_⟩ <;>
    norm_num [validate_premium_feature_fee, defaultFeeStructure]

/-- C4: a contract created by `create_contract` is NEVER returned by
`get_user_contracts`, for any user id (the owner included) and any prior
table state: the contract is stored under partition key
`CONTRACT#<contract_id>` with sort key `METADATA`, while the query looks
for partition `USER#<user_id>` with sort keys beginning with `CONTRACT`.
This contradicts the function's own stated purpose of returning a user's
contracts. -/
theorem c4_contract_never_listed_for_user (t : Table) (uid : String)
    (contract_id created_at user_id athlete_wallet sponsor_wallet
      contract_address abi : String)
    (appearances_required payment_amount platform_fee_percent
      deployment_fee : ℚ) :
    (create_contract t contract_id created_at user_id athlete_wallet
        sponsor_wallet contract_address abi appearances_required
        payment_amount platform_fee_percent deployment_fee).1 ∉
      get_user_contracts
        (create_contract t contract_id created_at user_id athlete_wallet
          sponsor_wallet contract_address abi appearances_required
          payment_amount platform_fee_percent deployment_fee).2 uid := by
  intro hmem
  rw [get_user_contracts, queryMain, List.mem_insertionSort] at hmem
  have hcond := List.of_mem_filter hmem
  simp only [create_contract] at hcond
  rw [Bool.and_eq_true] at hcond
  exact absurd hcond.2 (by decide)

/-- C5: round-trip — a contract written by `create_contract` and read
back by `get_contract` with the generated identifier is returned intact,
with the same owner user id, athlete and sponsor wallets, contract
address, and status `active`. -/
theorem c5_contract_roundtrip (t : Table)
    (contract_id created_at user_id athlete_wallet sponsor_wallet
      contract_address abi : String)
    (appearances_required payment_amount platform_fee_percent
      deployment_fee : ℚ) :
    get_contract
        (create_contract t contract_id created_at user_id athlete_wallet
          sponsor_wallet contract_address abi appearances_required
          payment_amount platform_fee_percent deployment_fee).2 contract_id =
      some (create_contract t contract_id created_at user_id athlete_wallet
          sponsor_wallet contract_address abi appearances_required
          payment_amount platform_fee_percent deployment_fee).1 ∧
    getAttr (create_contract t contract_id created_at user_id athlete_wallet
        sponsor_wallet contract_address abi appearances_required
        payment_amount platform_fee_percent deployment_fee).1 "user_id" =
      some (.str user_id) ∧
    getAttr (create_contract t contract_id created_at user_id athlete_wallet
        sponsor_wallet contract_address abi appearances_required
        payment_amount platform_fee_percent deployment_fee).1 "athlete_wallet" =
      some (.str athlete_wallet) ∧
    getAttr (create_contract t contract_id created_at user_id athlete_wallet
        sponsor_wallet contract_address abi appearances_required
        payment_amount platform_fee_percent deployment_fee).1 "sponsor_wallet" =
      some (.str sponsor_wallet) ∧
    getAttr (create_contract t contract_id created_at user_id athlete_wallet
        sponsor_wallet contract_address abi appearances_required
        payment_amount platform_fee_percent deployment_fee).1 "address" =
      some (.str contract_address) ∧
    getAttr (create_contract t contract_id created_at user_id athlete_wallet
        sponsor_wallet contract_address abi appearances_required
        payment_amount platform_fee_percent deployment_fee).1 "status" =
      some (.str "active") := by
  refine ⟨?_, rfl, rfl, rfl, rfl, rfl⟩
  simp [create_contract, get_contract, get_item, put_item, List.find?]

/-- C7 (counterexample): the claim keys every fee record under the
paying user with user-keyed secondary-index attributes; in fact a
deployment fee is keyed under `FEE#<fee_id>` (not under the user), and a
subscription fee carries no user-keyed `GSI1PK` attribute at all. -/
theorem c7_cex_fee_key_scheme :
    (record_deployment_fee [] "f1" "2024-01-01T00:00:00" "u1" "athlete"
        "sponsorship" 12.5).1.PK = "FEE#f1" ∧
    ("FEE#f1" : String) ≠ "USER#u1" ∧
    getAttr (record_subscription_fee [] "s1" "2024-01-01T00:00:00"
        "2024-01-31T00:00:00" "u1" "athlete" "monthly" 15).1 "GSI1PK" =
      none :=
  ⟨rfl, by decide, rfl⟩

/-- C7 (amended): only premium fee records are both keyed under the
paying user and carry the user-keyed `GSI1PK` index attribute.
Deployment fees are keyed under `FEE#<fee_id>` but do carry the
user-keyed `GSI1PK`; subscription fees are keyed under the user but
carry no `GSI1PK` (only the global kind index `GSI2PK = SUB`). -/
theorem c7_amended_fee_key_scheme (t : Table)
    (fee_id sub_id feature_id created_at end_date user_id user_type
      descriptor : String) (fee_usd : ℚ) :
    ((record_deployment_fee t fee_id created_at user_id user_type
        descriptor fee_usd).1.PK = "FEE#" ++ fee_id ∧
      getAttr (record_deployment_fee t fee_id created_at user_id user_type
        descriptor fee_usd).1 "GSI1PK" = some (.str ("USER#" ++ user_id)) ∧
      getAttr (record_deployment_fee t fee_id created_at user_id user_type
        descriptor fee_usd).1 "GSI2PK" = some (.str "FEE")) ∧
    ((record_subscription_fee t sub_id created_at end_date user_id
        user_type descriptor fee_usd).1.PK = "USER#" ++ user_id ∧
      getAttr (record_subscription_fee t sub_id created_at end_date user_id
        user_type descriptor fee_usd).1 "GSI1PK" = none ∧
      getAttr (record_subscription_fee t sub_id created_at end_date user_id
        user_type descriptor fee_usd).1 "GSI2PK" = some (.str "SUB")) ∧
    ((record_premium_fee t feature_id created_at user_id user_type
        descriptor fee_usd).1.PK = "USER#" ++ user_id ∧
      getAttr (record_premium_fee t feature_id created_at user_id user_type
        descriptor fee_usd).1 "GSI1PK" = some (.str ("USER#" ++ user_id)) ∧
      getAttr (record_premium_fee t feature_id created_at user_id user_type
        descriptor fee_usd).1 "GSI2PK" = some (.str "PREMIUM")) :=
  ⟨⟨rfl, rfl, rfl⟩, ⟨rfl, rfl, rfl⟩, ⟨rfl, rfl, rfl⟩⟩

/-- C8 (counterexample): the claim says no Ledger Store operation
catches a backend transport failure and returns a normal result; in
fact `get_fee_analytics` catches any such failure (its `try/except`
logs and falls through) and returns the initial analytics object —
empty sections, no error — as a normal result. -/
theorem c8_cex_analytics_swallows_failure :
    get_fee_analyticsE (.error (.storeUnavailable "connection refused")) =
      { by_deal_size := [], overall := none, top_users := [] } :=
  rfl

/-- C8 (amended): every Ledger Store operation except
`get_fee_analytics` propagates a backend transport failure to its
caller unchanged; `get_fee_analytics` alone catches the failure and
returns the empty analytics object as a normal result. -/
theorem c8_amended_error_propagation (e : StoreErr)
    (uid cid s ed et fid ca ut fn : String) (q : ℚ) :
    get_userE (.error e) uid = .error e ∧
    get_contractE (.error e) cid = .error e ∧
    get_user_contractsE (.error e) uid = .error e ∧
    get_transactions_by_date_rangeE (.error e) s ed et = .error e ∧
    record_premium_feeE (.error e) fid ca uid ut fn q = .error e ∧
    get_fee_analyticsE (.error e) =
      { by_deal_size := [], overall := none, top_users := [] } :=
  ⟨rfl, rfl, rfl, rfl, rfl, rfl⟩

/-- C9: a deployment fee recorded with creation time `created_at` is
included in a `GSI2` range query for kind `FEE` whenever
`t0 <= created_at <= t1` (inclusive `between`), is excluded whenever
`t1 < created_at`, and every such query returns its items in ascending
creation-time (`GSI2SK`) order. -/
theorem c9_fee_range_query (t : Table)
    (fee_id created_at user_id user_type contract_type : String)
    (fee_usd : ℚ) (t0 t1 : String) :
    (t0 ≤ created_at → created_at ≤ t1 →
      (record_deployment_fee t fee_id created_at user_id user_type
          contract_type fee_usd).1 ∈
        get_transactions_by_date_range
          (record_deployment_fee t fee_id created_at user_id user_type
            contract_type fee_usd).2 t0 t1 "FEE") ∧
    (t1 < created_at →
      (record_deployment_fee t fee_id created_at user_id user_type
          contract_type fee_usd).1 ∉
        get_transactions_by_date_range
          (record_deployment_fee t fee_id created_at user_id user_type
            contract_type fee_usd).2 t0 t1 "FEE") ∧
    (∀ t' : Table,
      List.Sorted gsi2le (get_transactions_by_date_range t' t0 t1 "FEE")) := by
  refine ⟨?_, ?_, ?_⟩
  · intro h0 h1
    rw [get_transactions_by_date_range, queryGSI2, List.mem_insertionSort]
    apply List.mem_filter.mpr
    refine ⟨by simp [record_deployment_fee, put_item], ?_⟩
    show (decide (t0 ≤ created_at) && decide (created_at ≤ t1)) = true
    rw [decide_eq_true h0, decide_eq_true h1]
    rfl
  · intro hlt hmem
    rw [get_transactions_by_date_range, queryGSI2, List.mem_insertionSort] at hmem
    have hcond := (List.mem_filter.mp hmem).2
    rw [Bool.and_eq_true] at hcond
    have h2 : (decide (t0 ≤ created_at) && decide (created_at ≤ t1)) = true :=
      hcond.2
    rw [Bool.and_eq_true, decide_eq_true_eq, decide_eq_true_eq] at h2
    exact absurd h2.2 (not_le.mpr hlt)
  · intro t'
    exact List.sorted_insertionSort gsi2le _

/-- C9 (witness): the range-query theorem applied at a concrete record
with `created_at = 2024-06-01`, once with bounds `[2024-01-01,
2024-12-31]` (record included) and once with bounds `[2023-01-01,
2023-12-31]` (record excluded). -/
theorem c9_witness_concrete_range :
    ((record_deployment_fee [] "f1" "2024-06-01T00:00:00" "u1" "athlete"
        "sponsorship" 12.5).1 ∈
      get_transactions_by_date_range
        (record_deployment_fee [] "f1" "2024-06-01T00:00:00" "u1" "athlete"
          "sponsorship" 12.5).2 "2024-01-01" "2024-12-31" "FEE") ∧
    ((record_deployment_fee [] "f1" "2024-06-01T00:00:00" "u1" "athlete"
        "sponsorship" 12.5).1 ∉
      get_transactions_by_date_range
        (record_deployment_fee [] "f1" "2024-06-01T00:00:00" "u1" "athlete"
          "sponsorship" 12.5).2 "2023-01-01" "2023-12-31" "FEE") :=
  ⟨(c9_fee_range_query [] "f1" "2024-06-01T00:00:00" "u1" "athlete"
      "sponsorship" 12.5 "2024-01-01" "2024-12-31").1
      (by rw [String.le_iff_toList_le]; decide)
      (by rw [String.le_iff_toList_le]; decide),
    (c9_fee_range_query [] "f1" "2024-06-01T00:00:00" "u1" "athlete"
      "sponsorship" 12.5 "2023-01-01" "2023-12-31").2.1
      (by rw [String.lt_iff_toList_lt]; decide)⟩

/-- C10: `record_premium_fee` records any amount — the premium-fee
validation bounds are never consulted on the recording path.  For every
amount with `validate_premium_feature_fee = false`, the written record
is present in the table, carries that amount, and is retrievable by its
key. -/
theorem c10_premium_recorded_without_bounds_check (t : Table)
    (feature_id created_at user_id user_type feature_name : String)
    (fee_usd : ℚ)
    (hout : validate_premium_feature_fee defaultFeeStructure fee_usd = false) :
    (record_premium_fee t feature_id created_at user_id user_type
        feature_name fee_usd).1 ∈
      (record_premium_fee t feature_id created_at user_id user_type
        feature_name fee_usd).2 ∧
    getAttr (record_premium_fee t feature_id created_at user_id user_type
        feature_name fee_usd).1 "fee_usd" = some (.num fee_usd) ∧
    get_item (record_premium_fee t feature_id created_at user_id user_type
        feature_name fee_usd).2 ("USER#" ++ user_id)
        ("PREMIUM#" ++ feature_id) =
      some (record_premium_fee t feature_id created_at user_id user_type
        feature_name fee_usd).1 := by
  refine ⟨by simp [record_premium_fee, put_item], rfl, ?_⟩
  simp [record_premium_fee, put_item, get_item, List.find?]

/-- C10 (witness): the theorem applied at the out-of-bounds amount 20
(the premium validation range is 5.00-10.00). -/
theorem c10_witness_amount_twenty :
    (record_premium_fee [] "p1" "2024-01-01T00:00:00" "u1" "athlete"
        "custom_branding" 20).1 ∈
      (record_premium_fee [] "p1" "2024-01-01T00:00:00" "u1" "athlete"
        "custom_branding" 20).2 ∧
    getAttr (record_premium_fee [] "p1" "2024-01-01T00:00:00" "u1" "athlete"
        "custom_branding" 20).1 "fee_usd" = some (.num 20) ∧
    get_item (record_premium_fee [] "p1" "2024-01-01T00:00:00" "u1" "athlete"
        "custom_branding" 20).2 ("USER#" ++ "u1") ("PREMIUM#" ++ "p1") =
      some (record_premium_fee [] "p1" "2024-01-01T00:00:00" "u1" "athlete"
        "custom_branding" 20).1 :=
  c10_premium_recorded_without_bounds_check [] "p1" "2024-01-01T00:00:00"
    "u1" "athlete" "custom_branding" 20
    (by norm_num [validate_premium_feature_fee, defaultFeeStructure])
